import Mathlib

/-!
# Stash `backup-pvc` command and e2e verification polls

A shallow embedding of

* `pkg/cmds/backup_pvc.go`: the target loop of the `backup-pvc` command
  (`NewCmdBackupPVC`, the body of `RunE` from the `for` statement on) and
  `pvcOptions.backupPVC`;
* `test/e2e/e2e.go`: `checkEventForBackup`, `checkContainerAfterBackupDelete`
  and `checkContainerDeletion`.

External collaborators (hook runner, readiness gate, environment readers, the
restic wrapper, the output writer, the cluster client) are fields of an
environment record; every call made to one of them is appended to a call log,
so that "is never invoked" is a statement about that log.
-/

namespace Stash

/-! ## Data model -/

/-- A Go `error` value; `Error()` yields its text. A nil error is `none` in `Option GoError`. -/
structure GoError where
  text : String
deriving DecidableEq

/-- The `Error()` method of a Go error. -/
def GoError.Error (e : GoError) : String := e.text

/-- Modelled from the spec: `api_v1beta1.TargetRef`, whose declaration is outside the
sources; the identity of a backup target, a kind tag and a name. -/
structure TargetRef where
  Kind : String
  Name : String
deriving DecidableEq

/-- Modelled from the spec: `api_v1beta1.BackupTarget`, the target descriptor: target
metadata bundled with its `TargetRef`. -/
structure BackupTarget where
  Ref : TargetRef
  metadata : String
deriving DecidableEq

/-- One entry of `invoker.TargetsInfo`; `Target` is a pointer and may be nil. -/
structure TargetInfo where
  Target : Option BackupTarget
deriving DecidableEq

/-- The Go string type `api_v1beta1.HostBackupPhase`. -/
abbrev HostBackupPhase := String

/-- The constant `api_v1beta1.HostBackupFailed`. -/
def HostBackupFailed : HostBackupPhase := "Failed"

/-- The constant `api_v1beta1.HostBackupSucceeded`. -/
def HostBackupSucceeded : HostBackupPhase := "Succeeded"

/-- Modelled from the spec: `api_v1beta1.HostBackupStats`: hostname, phase, optional
size and duration metrics, optional error message. Unset Go fields hold their zero
value, the empty string. -/
structure HostBackupStats where
  Hostname : String := ""
  Phase : HostBackupPhase := ""
  Size : String := ""
  Duration : String := ""
  Error : String := ""
deriving DecidableEq

/-- Modelled from the spec: `api_v1beta1.BackupTargetStatus`: the `TargetRef` plus an
ordered sequence of host statistics. -/
structure BackupTargetStatus where
  Ref : TargetRef
  Stats : List HostBackupStats
deriving DecidableEq

/-- The envelope `restic.BackupOutput`. -/
structure BackupOutput where
  BackupTargetStatus : BackupTargetStatus
deriving DecidableEq

/-- The CPU niceness hint `v1.NiceSettings`. -/
structure NiceSettings where
  Adjustment : Option Int
deriving DecidableEq

/-- The I/O priority hint `v1.IONiceSettings`. -/
structure IONiceSettings where
  Class : Option Int
  ClassData : Option Int
deriving DecidableEq

/-- The destination configuration `restic.SetupOptions`. -/
structure SetupOptions where
  Provider : String := ""
  Bucket : String := ""
  Endpoint : String := ""
  Region : String := ""
  Path : String := ""
  SecretDir : String := ""
  ScratchDir : String := ""
  EnableCache : Bool := false
  MaxConnections : Int := 0
  Nice : Option NiceSettings := none
  IONice : Option IONiceSettings := none
deriving DecidableEq

/-- The retention policy carried by `restic.BackupOptions`. -/
structure RetentionPolicy where
  KeepLast : Int := 0
  KeepHourly : Int := 0
  KeepDaily : Int := 0
  KeepWeekly : Int := 0
  KeepMonthly : Int := 0
  KeepYearly : Int := 0
  KeepTags : List String := []
  Prune : Bool := false
  DryRun : Bool := false
deriving DecidableEq

/-- The per-run parameters `restic.BackupOptions`. -/
structure BackupOptions where
  Host : String := ""
  BackupPaths : List String := []
  Exclude : List String := []
  RetentionPolicy : RetentionPolicy := {}
deriving DecidableEq

/-- The handle returned by `restic.NewResticWrapper`. -/
structure ResticWrapper where
  config : SetupOptions
deriving DecidableEq

/-- The argument record `api_util.ActionOptions` (the client handle is left out). -/
structure ActionOptions where
  TargetRef : TargetRef
  SetupOptions : SetupOptions
  BackupSessionName : String
  Namespace : String
deriving DecidableEq

/-- The receiver `pvcOptions` (client handles and the unused `restoreOpt` are left out). -/
structure pvcOptions where
  backupOpt : BackupOptions := {}
  setupOpt : SetupOptions := {}
  masterURL : String := ""
  kubeConfigPath : String := ""
  namespace_ : String := ""
  outputDir : String := ""
  invokerKind : String := ""
  invokerName : String := ""
  targetKind : String := ""
  targetName : String := ""
  backupSessionName : String := ""
deriving DecidableEq

/-- One call made to an external collaborator, with its arguments. -/
inductive Call where
  | GetHostName (target : BackupTarget)
  | ExecutePreBackupActions (o : ActionOptions)
  | WaitForBackendRepository (o : ActionOptions)
  | NiceSettingsFromEnv
  | IONiceSettingsFromEnv
  | NewResticWrapper (o : SetupOptions)
  | RunBackup (w : Option ResticWrapper) (o : BackupOptions) (ref : TargetRef)
  | WriteOutput (out : Option BackupOutput) (fileName : String)
deriving DecidableEq

/-- The external collaborators of the command. A Go result pair `(v, err)` is a
Lean pair whose second component is `none` for a nil error. -/
structure Env where
  GetHostName : BackupTarget → String × Option GoError
  ExecutePreBackupActions : ActionOptions → Option GoError
  WaitForBackendRepository : ActionOptions → Option GoError
  NiceSettingsFromEnv : Option NiceSettings × Option GoError
  IONiceSettingsFromEnv : Option IONiceSettings × Option GoError
  NewResticWrapper : SetupOptions → Option ResticWrapper × Option GoError
  RunBackup : Option ResticWrapper → BackupOptions → TargetRef →
    Option BackupOutput × Option GoError
  WriteOutput : Option BackupOutput → String → Option GoError
  filepathJoin : String → String → String

/-- The constant `restic.DefaultOutputFileName` (the `"output.json"` of the comment
above the write). -/
def DefaultOutputFileName : String := "output.json"

/-- Modelled from the spec: the helper `targetMatched` of package `cmds`, declared
outside the sources; string equality on both kind and name. -/
def targetMatched (tref : TargetRef) (expectedKind expectedName : String) : Bool :=
  tref.Kind == expectedKind && tref.Name == expectedName

/-! ## `pvcOptions.backupPVC` -/

/-- What `backupPVC` leaves behind: its two results, the receiver after the call and
the collaborator calls it made, in order. -/
structure PVCResult where
  output : Option BackupOutput
  err : Option GoError
  opt : pvcOptions
  calls : List Call
deriving DecidableEq

/-- The `api_util.ActionOptions` literal at the head of `backupPVC`. -/
def actionOptions (opt : pvcOptions) (targetRef : TargetRef) : ActionOptions :=
  { TargetRef := targetRef
    SetupOptions := opt.setupOpt
    BackupSessionName := opt.backupSessionName
    Namespace := opt.namespace_ }

/-- The assignment `opt.setupOpt.Nice = nice`. -/
def setNice (opt : pvcOptions) (nice : Option NiceSettings) : pvcOptions :=
  { opt with setupOpt := { opt.setupOpt with Nice := nice } }

/-- The assignment `opt.setupOpt.IONice = ionice`. -/
def setIONice (opt : pvcOptions) (ionice : Option IONiceSettings) : pvcOptions :=
  { opt with setupOpt := { opt.setupOpt with IONice := ionice } }

/-- The method `pvcOptions.backupPVC`. -/
def backupPVC (env : Env) (opt : pvcOptions) (targetRef : TargetRef) : PVCResult :=
  let actionOptions : ActionOptions := actionOptions opt targetRef
  let c1 := [Call.ExecutePreBackupActions actionOptions]
  match env.ExecutePreBackupActions actionOptions with
  | some err => ⟨none, some err, opt, c1⟩
  | none =>
  let c2 := c1 ++ [Call.WaitForBackendRepository actionOptions]
  match env.WaitForBackendRepository actionOptions with
  | some err => ⟨none, some err, opt, c2⟩
  | none =>
  let c3 := c2 ++ [Call.NiceSettingsFromEnv]
  let opt3 : pvcOptions := setNice opt env.NiceSettingsFromEnv.1
  match env.NiceSettingsFromEnv.2 with
  | some err => ⟨none, some err, opt3, c3⟩
  | none =>
  let c4 := c3 ++ [Call.IONiceSettingsFromEnv]
  let opt4 : pvcOptions := setIONice opt3 env.IONiceSettingsFromEnv.1
  match env.IONiceSettingsFromEnv.2 with
  | some err => ⟨none, some err, opt4, c4⟩
  | none =>
  let c5 := c4 ++ [Call.NewResticWrapper opt4.setupOpt]
  match env.NewResticWrapper opt4.setupOpt with
  | (_, some err) => ⟨none, some err, opt4, c5⟩
  | (resticWrapper, none) =>
  let c6 := c5 ++ [Call.RunBackup resticWrapper opt4.backupOpt targetRef]
  let r := env.RunBackup resticWrapper opt4.backupOpt targetRef
  ⟨r.1, r.2, opt4, c6⟩

/-! ## The target loop of the `backup-pvc` command -/

/-- What one run of the target loop leaves behind: the error `RunE` returns, the
value of the local `backupOutput` when the matched body reached the output step,
the options after the run and the collaborator calls made, in order. -/
structure CmdResult where
  ret : Option GoError
  backupOutput : Option (Option BackupOutput)
  opt : pvcOptions
  calls : List Call
deriving DecidableEq

/-- The `BackupOutput` literal built when `backupPVC` returned an error. -/
def failedOutput (ref : TargetRef) (host : String) (err : GoError) : BackupOutput :=
  { BackupTargetStatus :=
      { Ref := ref
        Stats := [{ Hostname := host, Phase := HostBackupFailed, Error := err.Error }] } }

/-- The assignment `opt.backupOpt.Host = host`. -/
def setHost (opt : pvcOptions) (host : String) : pvcOptions :=
  { opt with backupOpt := { opt.backupOpt with Host := host } }

/-- The body of the loop for an entry that passed the match test. -/
def matchedBody (env : Env) (opt : pvcOptions) (target : BackupTarget) : CmdResult :=
  let h := env.GetHostName target
  let opt1 : pvcOptions := setHost opt h.1
  let c1 := [Call.GetHostName target]
  match h.2 with
  | some err => ⟨some err, none, opt1, c1⟩
  | none =>
  -- run backup
  let r := backupPVC env opt1 target.Ref
  let opt2 := r.opt
  let c2 := c1 ++ r.calls
  let backupOutput : Option BackupOutput :=
    match r.err with
    | some err => some (failedOutput target.Ref opt2.backupOpt.Host err)
    | none => r.output
  if opt2.outputDir ≠ "" then
    let fileName := env.filepathJoin opt2.outputDir DefaultOutputFileName
    ⟨env.WriteOutput backupOutput fileName, some backupOutput, opt2,
      c2 ++ [Call.WriteOutput backupOutput fileName]⟩
  else
    ⟨r.err, some backupOutput, opt2, c2⟩

/-- The `for` loop over `invoker.TargetsInfo` and the `return nil` after it. -/
def runTargetLoop (env : Env) (opt : pvcOptions) : List TargetInfo → CmdResult
  | [] => ⟨none, none, opt, []⟩
  | targetInfo :: rest =>
    match targetInfo.Target with
    | some target =>
      if targetMatched target.Ref opt.targetKind opt.targetName then
        matchedBody env opt target
      else
        runTargetLoop env opt rest
    | none => runTargetLoop env opt rest

/-- The loop test of one entry: its `Target` is populated and its `Ref` matches. -/
def entryMatches (opt : pvcOptions) (targetInfo : TargetInfo) : Bool :=
  match targetInfo.Target with
  | some target => targetMatched target.Ref opt.targetKind opt.targetName
  | none => false

/-- Whether a call is a `WriteOutput`. -/
def Call.isWriteOutput : Call → Bool
  | .WriteOutput _ _ => true
  | _ => false

/-- Whether a call is a `RunBackup`. -/
def Call.isRunBackup : Call → Bool
  | .RunBackup _ _ _ => true
  | _ => false

/-- Whether a call is a `GetHostName`. -/
def Call.isGetHostName : Call → Bool
  | .GetHostName _ => true
  | _ => false

/-! ## `test/e2e/e2e.go`: the verification polls -/

/-- The part of `api.Event` the poll reads. -/
structure Event where
  Reason : String
deriving DecidableEq

/-- The part of `api.Container` the poll reads. -/
structure Container where
  Name : String
deriving DecidableEq

/-- The pod template of a workload, `api.PodTemplateSpec`; `Containers` stands for
`Spec.Containers`. -/
structure PodTemplateSpec where
  Containers : List Container
deriving DecidableEq

/-- The part of `api.ReplicationController` the poll reads; `Template` stands for
`Spec.Template`, which is a pointer and may be nil. -/
structure ReplicationController where
  Template : Option PodTemplateSpec
deriving DecidableEq

/-- The part of `extensions.ReplicaSet` the poll reads; `Template` stands for
`Spec.Template`, a struct value. -/
structure ReplicaSet where
  Template : PodTemplateSpec
deriving DecidableEq

/-- The part of `extensions.Deployment` the poll reads; `Template` stands for
`Spec.Template`, a struct value. -/
structure Deployment where
  Template : PodTemplateSpec
deriving DecidableEq

/-- The part of `extensions.DaemonSet` the poll reads; `Template` stands for
`Spec.Template`, a struct value. -/
structure DaemonSet where
  Template : PodTemplateSpec
deriving DecidableEq

/-- The empty object `&api.ReplicationController{}`: its template pointer is nil. -/
def ReplicationController.empty : ReplicationController := ⟨none⟩

/-- The empty object `&extensions.ReplicaSet{}`: no containers. -/
def ReplicaSet.empty : ReplicaSet := ⟨⟨[]⟩⟩

/-- The empty object `&extensions.Deployment{}`: no containers. -/
def Deployment.empty : Deployment := ⟨⟨[]⟩⟩

/-- The empty object `&extensions.DaemonSet{}`: no containers. -/
def DaemonSet.empty : DaemonSet := ⟨⟨[]⟩⟩

/-- The outcome of a workload `Get` of the cluster client. The client allocates an
empty object and decodes the response into it only when the request succeeds, so a
`Get` either succeeds with the stored object and a nil error, or fails with an
error and the empty object. -/
inductive GetResult (α : Type) where
  | ok (obj : α)
  | failed (err : GoError)

/-- The error a `Get` returns, nil on success. -/
def GetResult.err {α : Type} : GetResult α → Option GoError
  | .ok _ => none
  | .failed e => some e

/-- The object a `Get` returns: the stored object on success, the empty object
`empty` on failure. -/
def GetResult.obj {α : Type} (empty : α) : GetResult α → α
  | .ok o => o
  | .failed _ => empty

/-- The constants of package `controller` the test file refers to; their
declarations are outside the sources, so they are a parameter. -/
structure ControllerConsts where
  ReplicationController : String
  ReplicaSet : String
  Deployment : String
  DaemonSet : String
  ContainerName : String
deriving DecidableEq

/-- Modelled from the spec: the constants of package `controller`: the four
workload-kind tags and the sentinel helper-container name. -/
def restikConsts : ControllerConsts :=
  { ReplicationController := "ReplicationController"
    ReplicaSet := "ReplicaSet"
    Deployment := "Deployment"
    DaemonSet := "DaemonSet"
    ContainerName := "restik-sidecar" }

/-- The cluster client behind `watcher.Client`. Cluster state may change between
calls: `Events n name` is the outcome of the `Get(name)` issued after `n` earlier
fetches of the event poll, and the four workload accessors give the outcome of the
`Get(name)` issued in iteration `n` (counted from 0) of the teardown poll. -/
structure Watcher where
  Events : Nat → String → Event × Option GoError
  ReplicationControllers : Nat → String → GetResult ReplicationController
  ReplicaSets : Nat → String → GetResult ReplicaSet
  Deployments : Nat → String → GetResult Deployment
  DaemonSets : Nat → String → GetResult DaemonSet

/-- One observable step of a poll. -/
inductive PollStep where
  | fetch
  | sleep (seconds : Nat)
deriving DecidableEq

/-- What a poll leaves behind: the error it returns and its steps, in order. -/
structure PollResult where
  ret : Option GoError
  steps : List PollStep
deriving DecidableEq

/-- The number of fetches among the steps of a poll. -/
def PollResult.fetches (r : PollResult) : Nat := r.steps.count PollStep.fetch

/-- The number of sleeps of `s` seconds among the steps of a poll. -/
def PollResult.sleeps (r : PollResult) (s : Nat) : Nat := r.steps.count (PollStep.sleep s)

/-- The `for` loop of `checkEventForBackup` entered with counter `try_`, after `n`
fetches, followed by the statements after the loop. -/
def checkEventLoop (watcher : Watcher) (eventName : String) (try_ n : Nat)
    (steps : List PollStep) : PollResult :=
  let r := watcher.Events n eventName
  let event := r.1
  let steps1 := steps ++ [PollStep.fetch]
  match r.2 with
  | none =>
    -- break
    if event.Reason = "Failed" then
      ⟨some ⟨"Restic backup failed."⟩, steps1⟩
    else
      ⟨none, steps1⟩
  | some err =>
    if try_ > 12 then
      ⟨some err, steps1⟩
    else
      checkEventLoop watcher eventName (try_ + 1) (n + 1) (steps1 ++ [PollStep.sleep 10])
termination_by 13 - try_
decreasing_by omega

/-- The function `checkEventForBackup`. -/
def checkEventForBackup (watcher : Watcher) (eventName : String) : PollResult :=
  checkEventLoop watcher eventName 0 0 []

/-- The function `checkContainerDeletion`. -/
def checkContainerDeletion (k : ControllerConsts) : List Container → Option GoError
  | [] => none
  | c :: rest =>
    if c.Name = k.ContainerName then
      some ⟨"ERROR: Restik sidecar not deleted"⟩
    else
      checkContainerDeletion k rest

/-- How a run of the teardown poll ends: it returns an error value (nil included),
or it panics on a nil pointer dereference. -/
inductive Outcome where
  | returned (err : Option GoError)
  | panicked
deriving DecidableEq

/-- What the teardown poll leaves behind: how it ended and its steps, in order. -/
structure TeardownResult where
  outcome : Outcome
  steps : List PollStep
deriving DecidableEq

/-- The `switch _type` statement of `checkContainerAfterBackupDelete` in iteration
`n`: the new value of `containers`, or `none` when reading it dereferences a nil
pointer, and whether a fetch was made. The list is assigned only under
`err != nil`; for a replication controller the path `rc.Spec.Template.Spec`
goes through the template pointer. -/
def switchType (k : ControllerConsts) (watcher : Watcher) (name _type : String) (n : Nat)
    (containers : List Container) : Option (List Container) × Bool :=
  if _type = k.ReplicationController then
    let rc := watcher.ReplicationControllers n name
    if rc.err ≠ none then
      match (rc.obj ReplicationController.empty).Template with
      | none => (none, true)
      | some template => (some template.Containers, true)
    else
      (some containers, true)
  else if _type = k.ReplicaSet then
    let rs := watcher.ReplicaSets n name
    (some (if rs.err ≠ none then (rs.obj ReplicaSet.empty).Template.Containers
      else containers), true)
  else if _type = k.Deployment then
    let deployment := watcher.Deployments n name
    (some (if deployment.err ≠ none then
      (deployment.obj Deployment.empty).Template.Containers else containers), true)
  else if _type = k.DaemonSet then
    let daemonset := watcher.DaemonSets n name
    (some (if daemonset.err ≠ none then
      (daemonset.obj DaemonSet.empty).Template.Containers else containers), true)
  else
    (some containers, false)

/-- The `for` loop of `checkContainerAfterBackupDelete` entered with counter `try_`
in iteration `n`, followed by the `return err` after the loop. -/
def checkContainerLoop (k : ControllerConsts) (watcher : Watcher) (name _type : String)
    (try_ n : Nat) (containers : List Container) (steps : List PollStep) : TeardownResult :=
  let steps1 := steps ++ [PollStep.sleep 20]
  let sw := switchType k watcher name _type n containers
  let steps2 := if sw.2 then steps1 ++ [PollStep.fetch] else steps1
  match sw.1 with
  | none => ⟨Outcome.panicked, steps2⟩
  | some containers1 =>
    match checkContainerDeletion k containers1 with
    | none => ⟨Outcome.returned none, steps2⟩
    | some err =>
      if try_ + 1 > 6 then
        ⟨Outcome.returned (some err), steps2⟩
      else
        checkContainerLoop k watcher name _type (try_ + 1) (n + 1) containers1 steps2
termination_by 6 - try_
decreasing_by omega

/-- The function `checkContainerAfterBackupDelete`; `containers` starts as the nil
slice. -/
def checkContainerAfterBackupDelete (k : ControllerConsts) (watcher : Watcher)
    (name _type : String) : TeardownResult :=
  checkContainerLoop k watcher name _type 0 0 [] []

/-! ## Sample inputs -/

/-- A sample error. -/
def errBoom : GoError := ⟨"connection refused"⟩

/-- A sample target, the deployment `app-x`. -/
def sampleTarget : BackupTarget := { Ref := ⟨"Deployment", "app-x"⟩, metadata := "pvc" }

/-- Sample options selecting `sampleTarget`, without an output directory. -/
def optNoDir : pvcOptions := { targetKind := "Deployment", targetName := "app-x" }

/-- Sample options selecting `sampleTarget`, with an output directory. -/
def optDir : pvcOptions :=
  { targetKind := "Deployment", targetName := "app-x", outputDir := "/out" }

/-- A sample environment in which every collaborator succeeds except the engine
run, which fails with `errBoom`. -/
def envEngineFails : Env :=
  { GetHostName := fun _ => ("host-0", none)
    ExecutePreBackupActions := fun _ => none
    WaitForBackendRepository := fun _ => none
    NiceSettingsFromEnv := (none, none)
    IONiceSettingsFromEnv := (none, none)
    NewResticWrapper := fun o => (some ⟨o⟩, none)
    RunBackup := fun _ _ _ => (none, some errBoom)
    WriteOutput := fun _ _ => none
    filepathJoin := fun d f => d ++ "/" ++ f }

/-- A sample environment in which the pre-backup hooks fail with `errBoom`. -/
def envHookFails : Env :=
  { envEngineFails with ExecutePreBackupActions := fun _ => some errBoom }

/-- A sample invoker list: an entry without target, a non-matching entry, the
matching `sampleTarget`, and a later entry that would match as well. -/
def sampleTargets : List TargetInfo :=
  [⟨none⟩, ⟨some { Ref := ⟨"StatefulSet", "db"⟩, metadata := "" }⟩, ⟨some sampleTarget⟩,
    ⟨some { Ref := ⟨"Deployment", "app-x"⟩, metadata := "later" }⟩]

/-- The steps of `m` failed fetches of the event poll, each followed by its
10-second sleep. -/
def eventSteps : Nat → List PollStep
  | 0 => []
  | m + 1 => PollStep.fetch :: PollStep.sleep 10 :: eventSteps m

/-- The text of the error `checkContainerDeletion` creates. -/
def sidecarNotDeleted : GoError := ⟨"ERROR: Restik sidecar not deleted"⟩

/-- The text of the error `checkEventForBackup` creates for a `"Failed"` event. -/
def resticBackupFailed : GoError := ⟨"Restic backup failed."⟩

/-- A pod template that still holds the sidecar. -/
def templateWithSidecar : PodTemplateSpec := ⟨[⟨"app"⟩, ⟨"restik-sidecar"⟩]⟩

/-- A sample cluster: the event fetch fails 13 times and succeeds from then on with
a `"Succeeded"` event; every workload fetch succeeds and returns a pod template
that still holds the sidecar. -/
def watcherSidecarStays : Watcher :=
  { Events := fun n _ =>
      if n < 13 then (⟨""⟩, some ⟨"event not found"⟩) else (⟨"Succeeded"⟩, none)
    ReplicationControllers := fun _ _ => GetResult.ok ⟨some templateWithSidecar⟩
    ReplicaSets := fun _ _ => GetResult.ok ⟨templateWithSidecar⟩
    Deployments := fun _ _ => GetResult.ok ⟨templateWithSidecar⟩
    DaemonSets := fun _ _ => GetResult.ok ⟨templateWithSidecar⟩ }

/-- A sample cluster in which no event is ever found and every workload fetch
fails. -/
def watcherAllFail : Watcher :=
  { Events := fun _ _ => (⟨""⟩, some ⟨"event not found"⟩)
    ReplicationControllers := fun _ _ => GetResult.failed ⟨"not found"⟩
    ReplicaSets := fun _ _ => GetResult.failed ⟨"not found"⟩
    Deployments := fun _ _ => GetResult.failed ⟨"not found"⟩
    DaemonSets := fun _ _ => GetResult.failed ⟨"not found"⟩ }

/-- A sample cluster whose event fetch fails twice and then yields a `"Failed"`
event. -/
def watcherFailedEvent : Watcher :=
  { watcherAllFail with
    Events := fun n _ =>
      if n < 2 then (⟨""⟩, some ⟨"event not found"⟩) else (⟨"Failed"⟩, none) }

/-! ## Lemmas on `backupPVC` and the target loop -/

theorem backupPVC_backupOpt (env : Env) (opt : pvcOptions) (ref : TargetRef) :
    (backupPVC env opt ref).opt.backupOpt = opt.backupOpt := by
  unfold backupPVC
  simp only
  split <;> try rfl
  split <;> try rfl
  split <;> try rfl
  split <;> try rfl
  split <;> rfl

theorem backupPVC_outputDir (env : Env) (opt : pvcOptions) (ref : TargetRef) :
    (backupPVC env opt ref).opt.outputDir = opt.outputDir := by
  unfold backupPVC
  simp only
  split <;> try rfl
  split <;> try rfl
  split <;> try rfl
  split <;> try rfl
  split <;> rfl

theorem runTargetLoop_skip (env : Env) (opt : pvcOptions) (pre rest : List TargetInfo)
    (h : ∀ x ∈ pre, entryMatches opt x = false) :
    runTargetLoop env opt (pre ++ rest) = runTargetLoop env opt rest := by
  induction pre with
  | nil => rfl
  | cons x xs ih =>
    have hx := h x (List.mem_cons_self _ _)
    have hxs : ∀ y ∈ xs, entryMatches opt y = false :=
      fun y hy => h y (List.mem_cons_of_mem _ hy)
    rw [List.cons_append, runTargetLoop]
    unfold entryMatches at hx
    cases hT : x.Target with
    | none => simp only; exact ih hxs
    | some t =>
      rw [hT] at hx
      simp only at hx
      simp only [hx]
      exact ih hxs

theorem runTargetLoop_hit (env : Env) (opt : pvcOptions) (target : BackupTarget)
    (rest : List TargetInfo)
    (h : targetMatched target.Ref opt.targetKind opt.targetName = true) :
    runTargetLoop env opt (⟨some target⟩ :: rest) = matchedBody env opt target := by
  rw [runTargetLoop]
  simp only [h, if_true]

theorem setHost_outputDir (opt : pvcOptions) (host : String) :
    (setHost opt host).outputDir = opt.outputDir := rfl

theorem setHost_host (opt : pvcOptions) (host : String) :
    (setHost opt host).backupOpt.Host = host := rfl

/-- The matched body when the host name resolves and `backupPVC` returns an error:
the `Failed` output is built, then written or dropped according to the output
directory. -/
theorem matchedBody_of_error (env : Env) (opt : pvcOptions) (target : BackupTarget)
    (e : GoError) (hhost : (env.GetHostName target).2 = none)
    (herr : (backupPVC env (setHost opt (env.GetHostName target).1) target.Ref).err = some e) :
    matchedBody env opt target =
      if opt.outputDir ≠ "" then
        ⟨env.WriteOutput
            (some (failedOutput target.Ref (env.GetHostName target).1 e))
            (env.filepathJoin opt.outputDir DefaultOutputFileName),
          some (some (failedOutput target.Ref (env.GetHostName target).1 e)),
          (backupPVC env (setHost opt (env.GetHostName target).1) target.Ref).opt,
          [Call.GetHostName target] ++
            (backupPVC env (setHost opt (env.GetHostName target).1) target.Ref).calls ++
            [Call.WriteOutput
              (some (failedOutput target.Ref (env.GetHostName target).1 e))
              (env.filepathJoin opt.outputDir DefaultOutputFileName)]⟩
      else
        ⟨some e,
          some (some (failedOutput target.Ref (env.GetHostName target).1 e)),
          (backupPVC env (setHost opt (env.GetHostName target).1) target.Ref).opt,
          [Call.GetHostName target] ++
            (backupPVC env (setHost opt (env.GetHostName target).1) target.Ref).calls⟩ := by
  unfold matchedBody
  simp only [hhost, herr, backupPVC_backupOpt, backupPVC_outputDir, setHost_outputDir,
    setHost_host]

/-- C1: in the backup-pvc command, for the first matched target whose host identity
resolves and for which `backupPVC` returns an error `e`, the `BackupOutput` the
command builds has `Ref` equal to the target's `Ref` and `Stats` equal to a list of
exactly one `HostBackupStats` whose `Phase` is `Failed`, whose `Hostname` is the
value `GetHostName` returned (held in `backupOpt.Host`) and whose `Error` is the
message of `e`; every other field holds its zero value. -/
theorem failed_output_built_on_error (env : Env) (opt : pvcOptions)
    (pre post : List TargetInfo) (target : BackupTarget) (e : GoError)
    (hpre : ∀ x ∈ pre, entryMatches opt x = false)
    (hm : targetMatched target.Ref opt.targetKind opt.targetName = true)
    (hhost : (env.GetHostName target).2 = none)
    (herr : (backupPVC env (setHost opt (env.GetHostName target).1) target.Ref).err = some e) :
    (runTargetLoop env opt (pre ++ ⟨some target⟩ :: post)).backupOutput =
        some (some
          { BackupTargetStatus :=
              { Ref := target.Ref
                Stats :=
                  [{ Hostname := (env.GetHostName target).1
                     Phase := "Failed"
                     Size := ""
                     Duration := ""
                     Error := e.Error }] } }) ∧
      (runTargetLoop env opt (pre ++ ⟨some target⟩ :: post)).opt.backupOpt.Host =
        (env.GetHostName target).1 := by
  rw [runTargetLoop_skip env opt pre _ hpre, runTargetLoop_hit env opt target post hm,
    matchedBody_of_error env opt target e hhost herr]
  split <;> simp [failedOutput, HostBackupFailed, backupPVC_backupOpt, setHost_host]

theorem failed_output_built_on_error_witness :
    (envEngineFails.GetHostName sampleTarget).2 = none ∧
      (runTargetLoop envEngineFails optDir sampleTargets).backupOutput =
        some (some
          { BackupTargetStatus :=
              { Ref := ⟨"Deployment", "app-x"⟩
                Stats :=
                  [{ Hostname := "host-0"
                     Phase := "Failed"
                     Size := ""
                     Duration := ""
                     Error := "connection refused" }] } }) :=
  ⟨rfl, (failed_output_built_on_error envEngineFails optDir
    [⟨none⟩, ⟨some { Ref := ⟨"StatefulSet", "db"⟩, metadata := "" }⟩]
    [⟨some { Ref := ⟨"Deployment", "app-x"⟩, metadata := "later" }⟩]
    sampleTarget errBoom (by decide) (by decide) rfl rfl).1⟩

theorem actionOptions_setHost (opt : pvcOptions) (host : String) (ref : TargetRef) :
    actionOptions (setHost opt host) ref = actionOptions opt ref := rfl

/-- A failing pre-backup hook ends `backupPVC` after its first call. -/
theorem backupPVC_hook_error (env : Env) (opt : pvcOptions) (ref : TargetRef) (e : GoError)
    (h : env.ExecutePreBackupActions (actionOptions opt ref) = some e) :
    backupPVC env opt ref =
      ⟨none, some e, opt, [Call.ExecutePreBackupActions (actionOptions opt ref)]⟩ := by
  unfold backupPVC
  simp only [h]

/-- The calls of `backupPVC` are an initial segment of its six stages, in order. -/
theorem backupPVC_calls (env : Env) (opt : pvcOptions) (ref : TargetRef) :
    ∃ k, k ≤ 6 ∧ 1 ≤ k ∧ (backupPVC env opt ref).calls =
      ([Call.ExecutePreBackupActions (actionOptions opt ref),
        Call.WaitForBackendRepository (actionOptions opt ref),
        Call.NiceSettingsFromEnv,
        Call.IONiceSettingsFromEnv,
        Call.NewResticWrapper
          (setIONice (setNice opt env.NiceSettingsFromEnv.1)
            env.IONiceSettingsFromEnv.1).setupOpt,
        Call.RunBackup
          (env.NewResticWrapper
            (setIONice (setNice opt env.NiceSettingsFromEnv.1)
              env.IONiceSettingsFromEnv.1).setupOpt).1
          (setIONice (setNice opt env.NiceSettingsFromEnv.1)
            env.IONiceSettingsFromEnv.1).backupOpt ref]).take k := by
  unfold backupPVC
  simp only
  split
  · exact ⟨1, by omega, by omega, rfl⟩
  split
  · exact ⟨2, by omega, by omega, rfl⟩
  split
  · exact ⟨3, by omega, by omega, rfl⟩
  split
  · exact ⟨4, by omega, by omega, rfl⟩
  split
  · exact ⟨5, by omega, by omega, rfl⟩
  · rename_i w hw
    refine ⟨6, by omega, by omega, ?_⟩
    simp [hw]

/-- Inside `backupPVC` no host name is resolved, nothing is written, the engine runs
at most once, and only on the reference passed in. -/
theorem backupPVC_calls_kinds (env : Env) (opt : pvcOptions) (ref : TargetRef) :
    (backupPVC env opt ref).calls.countP Call.isGetHostName = 0 ∧
      (backupPVC env opt ref).calls.countP Call.isWriteOutput = 0 ∧
      (backupPVC env opt ref).calls.countP Call.isRunBackup ≤ 1 ∧
      ∀ w o r, Call.RunBackup w o r ∈ (backupPVC env opt ref).calls → r = ref := by
  obtain ⟨k, hk6, hk1, hk⟩ := backupPVC_calls env opt ref
  rw [hk]
  interval_cases k <;>
    simp [Call.isGetHostName, Call.isWriteOutput, Call.isRunBackup, List.countP_cons]

/-- C3: for every invoker target list (of any length, the empty list included) in
which no entry has a populated `Target` whose `Ref` matches the selector, the target
loop returns nil, resolves no host name, never calls `backupPVC`, writes no output
and leaves the options untouched: its call log is empty. -/
theorem no_match_is_silent (env : Env) (opt : pvcOptions) (targets : List TargetInfo)
    (h : ∀ x ∈ targets, entryMatches opt x = false) :
    runTargetLoop env opt targets = ⟨none, none, opt, []⟩ := by
  have := runTargetLoop_skip env opt targets [] h
  simpa [runTargetLoop] using this

theorem no_match_is_silent_witness :
    (∀ x ∈ [(⟨none⟩ : TargetInfo), ⟨some { Ref := ⟨"StatefulSet", "db"⟩, metadata := "" }⟩,
        ⟨some { Ref := ⟨"Deployment", "other"⟩, metadata := "" }⟩],
        entryMatches optDir x = false) ∧
      runTargetLoop envEngineFails optDir
        [⟨none⟩, ⟨some { Ref := ⟨"StatefulSet", "db"⟩, metadata := "" }⟩,
          ⟨some { Ref := ⟨"Deployment", "other"⟩, metadata := "" }⟩] =
        ⟨none, none, optDir, []⟩ :=
  ⟨by decide, no_match_is_silent envEngineFails optDir _ (by decide)⟩

/-- C4: when the invoker target list holds an entry with a populated `Target` whose
`Ref` matches the selector on kind and name, preceded only by entries that are nil
or do not match, the loop does exactly what the body does on that first entry,
whatever follows it: the host name is resolved once, for that target, the engine
runs at most once, on that target's `Ref`, and no later entry is processed. -/
theorem first_match_only (env : Env) (opt : pvcOptions) (pre post : List TargetInfo)
    (target : BackupTarget)
    (hpre : ∀ x ∈ pre, entryMatches opt x = false)
    (hm : targetMatched target.Ref opt.targetKind opt.targetName = true) :
    runTargetLoop env opt (pre ++ ⟨some target⟩ :: post) = matchedBody env opt target ∧
      (matchedBody env opt target).calls.head? = some (Call.GetHostName target) ∧
      (matchedBody env opt target).calls.countP Call.isGetHostName = 1 ∧
      (matchedBody env opt target).calls.countP Call.isRunBackup ≤ 1 ∧
      (∀ t, Call.GetHostName t ∈ (matchedBody env opt target).calls → t = target) ∧
      ∀ w o r, Call.RunBackup w o r ∈ (matchedBody env opt target).calls → r = target.Ref := by
  obtain ⟨hg, _, hr, href⟩ :=
    backupPVC_calls_kinds env (setHost opt (env.GetHostName target).1) target.Ref
  have hg2 : ∀ t, Call.GetHostName t ∉
      (backupPVC env (setHost opt (env.GetHostName target).1) target.Ref).calls := by
    intro t ht
    have := List.countP_pos_iff.mpr ⟨_, ht, (rfl : Call.isGetHostName (Call.GetHostName t) = true)⟩
    omega
  refine ⟨by rw [runTargetLoop_skip env opt pre _ hpre, runTargetLoop_hit env opt target post hm],
    ?_⟩
  unfold matchedBody
  simp only
  split
  · simp [Call.isGetHostName, Call.isRunBackup]
  · split
    · refine ⟨rfl, ?_, ?_, ?_, ?_⟩
      · simp [List.countP_cons, List.countP_append, Call.isGetHostName, hg]
      · simpa [List.countP_cons, List.countP_append, Call.isRunBackup] using hr
      · intro t ht
        simp [hg2] at ht
        exact ht
      · intro w o r h
        simp at h
        exact href w o r h
    · refine ⟨rfl, ?_, ?_, ?_, ?_⟩
      · simp [List.countP_cons, Call.isGetHostName, hg]
      · simpa [List.countP_cons, Call.isRunBackup] using hr
      · intro t ht
        simp [hg2] at ht
        exact ht
      · intro w o r h
        simp at h
        exact href w o r h

theorem first_match_only_witness :
    (∀ x ∈ [(⟨none⟩ : TargetInfo), ⟨some { Ref := ⟨"StatefulSet", "db"⟩, metadata := "" }⟩],
        entryMatches optDir x = false) ∧
      targetMatched sampleTarget.Ref optDir.targetKind optDir.targetName = true ∧
      runTargetLoop envEngineFails optDir sampleTargets =
        matchedBody envEngineFails optDir sampleTarget :=
  ⟨by decide, by decide,
    (first_match_only envEngineFails optDir
      [⟨none⟩, ⟨some { Ref := ⟨"StatefulSet", "db"⟩, metadata := "" }⟩]
      [⟨some { Ref := ⟨"Deployment", "app-x"⟩, metadata := "later" }⟩]
      sampleTarget (by decide) (by decide)).1⟩

/-- The options `backupPVC` works with once both priority hints are read. -/
theorem backupPVC_all_stages (env : Env) (opt : pvcOptions) (ref : TargetRef)
    (h1 : env.ExecutePreBackupActions (actionOptions opt ref) = none)
    (h2 : env.WaitForBackendRepository (actionOptions opt ref) = none)
    (h3 : env.NiceSettingsFromEnv.2 = none)
    (h4 : env.IONiceSettingsFromEnv.2 = none)
    (h5 : (env.NewResticWrapper
      (setIONice (setNice opt env.NiceSettingsFromEnv.1)
        env.IONiceSettingsFromEnv.1).setupOpt).2 = none) :
    backupPVC env opt ref =
      ⟨(env.RunBackup
          (env.NewResticWrapper
            (setIONice (setNice opt env.NiceSettingsFromEnv.1)
              env.IONiceSettingsFromEnv.1).setupOpt).1
          (setIONice (setNice opt env.NiceSettingsFromEnv.1)
            env.IONiceSettingsFromEnv.1).backupOpt ref).1,
        (env.RunBackup
          (env.NewResticWrapper
            (setIONice (setNice opt env.NiceSettingsFromEnv.1)
              env.IONiceSettingsFromEnv.1).setupOpt).1
          (setIONice (setNice opt env.NiceSettingsFromEnv.1)
            env.IONiceSettingsFromEnv.1).backupOpt ref).2,
        setIONice (setNice opt env.NiceSettingsFromEnv.1) env.IONiceSettingsFromEnv.1,
        [Call.ExecutePreBackupActions (actionOptions opt ref),
          Call.WaitForBackendRepository (actionOptions opt ref),
          Call.NiceSettingsFromEnv,
          Call.IONiceSettingsFromEnv,
          Call.NewResticWrapper
            (setIONice (setNice opt env.NiceSettingsFromEnv.1)
              env.IONiceSettingsFromEnv.1).setupOpt,
          Call.RunBackup
            (env.NewResticWrapper
              (setIONice (setNice opt env.NiceSettingsFromEnv.1)
                env.IONiceSettingsFromEnv.1).setupOpt).1
            (setIONice (setNice opt env.NiceSettingsFromEnv.1)
              env.IONiceSettingsFromEnv.1).backupOpt ref]⟩ := by
  unfold backupPVC
  simp only [h1, h2, h3, h4]
  split
  · rename_i w err hw
    rw [hw] at h5
    cases h5
  · rename_i w hw
    simp [hw]

/-- C6: in `backupPVC`, if `ExecutePreBackupActions` returns an error `e` then
`backupPVC` returns `(nil, e)` and the only call made is the hook call: no
readiness wait, no nice or ionice read, no wrapper construction, no engine run.
More generally the stages run in the order hooks, readiness wait, nice, ionice,
engine construction, engine run; the first stage to fail ends the call with its own
error after exactly the stages up to it, and when the first five pass the results
are those of the engine run. -/
theorem backupPVC_stage_order (env : Env) (opt : pvcOptions) (ref : TargetRef) :
    (∀ e, env.ExecutePreBackupActions (actionOptions opt ref) = some e →
      backupPVC env opt ref =
        ⟨none, some e, opt, [Call.ExecutePreBackupActions (actionOptions opt ref)]⟩) ∧
    (env.ExecutePreBackupActions (actionOptions opt ref) = none →
      ∀ e, env.WaitForBackendRepository (actionOptions opt ref) = some e →
      backupPVC env opt ref =
        ⟨none, some e, opt,
          [Call.ExecutePreBackupActions (actionOptions opt ref),
            Call.WaitForBackendRepository (actionOptions opt ref)]⟩) ∧
    (env.ExecutePreBackupActions (actionOptions opt ref) = none →
      env.WaitForBackendRepository (actionOptions opt ref) = none →
      ∀ e, env.NiceSettingsFromEnv.2 = some e →
      backupPVC env opt ref =
        ⟨none, some e, setNice opt env.NiceSettingsFromEnv.1,
          [Call.ExecutePreBackupActions (actionOptions opt ref),
            Call.WaitForBackendRepository (actionOptions opt ref),
            Call.NiceSettingsFromEnv]⟩) ∧
    (env.ExecutePreBackupActions (actionOptions opt ref) = none →
      env.WaitForBackendRepository (actionOptions opt ref) = none →
      env.NiceSettingsFromEnv.2 = none →
      ∀ e, env.IONiceSettingsFromEnv.2 = some e →
      backupPVC env opt ref =
        ⟨none, some e,
          setIONice (setNice opt env.NiceSettingsFromEnv.1) env.IONiceSettingsFromEnv.1,
          [Call.ExecutePreBackupActions (actionOptions opt ref),
            Call.WaitForBackendRepository (actionOptions opt ref),
            Call.NiceSettingsFromEnv,
            Call.IONiceSettingsFromEnv]⟩) ∧
    (env.ExecutePreBackupActions (actionOptions opt ref) = none →
      env.WaitForBackendRepository (actionOptions opt ref) = none →
      env.NiceSettingsFromEnv.2 = none →
      env.IONiceSettingsFromEnv.2 = none →
      ∀ e, (env.NewResticWrapper
        (setIONice (setNice opt env.NiceSettingsFromEnv.1)
          env.IONiceSettingsFromEnv.1).setupOpt).2 = some e →
      backupPVC env opt ref =
        ⟨none, some e,
          setIONice (setNice opt env.NiceSettingsFromEnv.1) env.IONiceSettingsFromEnv.1,
          [Call.ExecutePreBackupActions (actionOptions opt ref),
            Call.WaitForBackendRepository (actionOptions opt ref),
            Call.NiceSettingsFromEnv,
            Call.IONiceSettingsFromEnv,
            Call.NewResticWrapper
              (setIONice (setNice opt env.NiceSettingsFromEnv.1)
                env.IONiceSettingsFromEnv.1).setupOpt]⟩) ∧
    (env.ExecutePreBackupActions (actionOptions opt ref) = none →
      env.WaitForBackendRepository (actionOptions opt ref) = none →
      env.NiceSettingsFromEnv.2 = none →
      env.IONiceSettingsFromEnv.2 = none →
      (env.NewResticWrapper
        (setIONice (setNice opt env.NiceSettingsFromEnv.1)
          env.IONiceSettingsFromEnv.1).setupOpt).2 = none →
      backupPVC env opt ref =
        ⟨(env.RunBackup
            (env.NewResticWrapper
              (setIONice (setNice opt env.NiceSettingsFromEnv.1)
                env.IONiceSettingsFromEnv.1).setupOpt).1
            (setIONice (setNice opt env.NiceSettingsFromEnv.1)
              env.IONiceSettingsFromEnv.1).backupOpt ref).1,
          (env.RunBackup
            (env.NewResticWrapper
              (setIONice (setNice opt env.NiceSettingsFromEnv.1)
                env.IONiceSettingsFromEnv.1).setupOpt).1
            (setIONice (setNice opt env.NiceSettingsFromEnv.1)
              env.IONiceSettingsFromEnv.1).backupOpt ref).2,
          setIONice (setNice opt env.NiceSettingsFromEnv.1) env.IONiceSettingsFromEnv.1,
          [Call.ExecutePreBackupActions (actionOptions opt ref),
            Call.WaitForBackendRepository (actionOptions opt ref),
            Call.NiceSettingsFromEnv,
            Call.IONiceSettingsFromEnv,
            Call.NewResticWrapper
              (setIONice (setNice opt env.NiceSettingsFromEnv.1)
                env.IONiceSettingsFromEnv.1).setupOpt,
            Call.RunBackup
              (env.NewResticWrapper
                (setIONice (setNice opt env.NiceSettingsFromEnv.1)
                  env.IONiceSettingsFromEnv.1).setupOpt).1
              (setIONice (setNice opt env.NiceSettingsFromEnv.1)
                env.IONiceSettingsFromEnv.1).backupOpt ref]⟩) := by
  refine ⟨?_, ?_, ?_, ?_, ?_, ?_⟩
  · intro e h1
    exact backupPVC_hook_error env opt ref e h1
  · intro h1 e h2
    unfold backupPVC
    simp only [h1, h2, List.singleton_append]
  · intro h1 h2 e h3
    unfold backupPVC
    simp only [h1, h2, h3, List.singleton_append, List.cons_append, List.nil_append]
  · intro h1 h2 h3 e h4
    unfold backupPVC
    simp only [h1, h2, h3, h4, List.singleton_append, List.cons_append, List.nil_append]
  · intro h1 h2 h3 h4 e h5
    unfold backupPVC
    simp only [h1, h2, h3, h4]
    split
    · rename_i w err hw
      rw [hw] at h5
      cases h5
      simp
    · rename_i w hw
      rw [hw] at h5
      cases h5
  · intro h1 h2 h3 h4 h5
    exact backupPVC_all_stages env opt ref h1 h2 h3 h4 h5

theorem backupPVC_stage_order_witness :
    envHookFails.ExecutePreBackupActions (actionOptions optDir sampleTarget.Ref) =
        some errBoom ∧
      backupPVC envHookFails optDir sampleTarget.Ref =
        ⟨none, some errBoom, optDir,
          [Call.ExecutePreBackupActions (actionOptions optDir sampleTarget.Ref)]⟩ ∧
      (backupPVC envEngineFails optDir sampleTarget.Ref).err = some errBoom ∧
      (backupPVC envEngineFails optDir sampleTarget.Ref).calls.length = 6 :=
  ⟨rfl, (backupPVC_stage_order envHookFails optDir sampleTarget.Ref).1 errBoom rfl,
    by rw [(backupPVC_stage_order envEngineFails optDir sampleTarget.Ref).2.2.2.2.2
      rfl rfl rfl rfl rfl]; rfl,
    by rw [(backupPVC_stage_order envEngineFails optDir sampleTarget.Ref).2.2.2.2.2
      rfl rfl rfl rfl rfl]; rfl⟩

/-- C2 as stated fails: with an output directory configured and the pre-backup hooks
failing, the command does call `WriteOutput`, with the `Failed` output. -/
theorem written_despite_hook_error :
    envHookFails.ExecutePreBackupActions (actionOptions optDir sampleTarget.Ref) =
        some errBoom ∧
      (runTargetLoop envHookFails optDir sampleTargets).calls =
        [Call.GetHostName sampleTarget,
          Call.ExecutePreBackupActions (actionOptions optDir sampleTarget.Ref),
          Call.WriteOutput
            (some
              { BackupTargetStatus :=
                  { Ref := ⟨"Deployment", "app-x"⟩
                    Stats :=
                      [{ Hostname := "host-0"
                         Phase := "Failed"
                         Error := "connection refused" }] } })
            "/out/output.json"] ∧
      (runTargetLoop envHookFails optDir sampleTargets).calls.any Call.isWriteOutput = true := by
  refine ⟨rfl, ?_, ?_⟩ <;> decide

/-- C2 (amended): for the first matched target whose host identity resolves, if
`ExecutePreBackupActions` fails with `e`, then without an output directory the
command returns `e` and makes no `WriteOutput` call (its calls are the host lookup
and the hook call); with an output directory it calls `WriteOutput` exactly once,
last, with the `Failed` output carrying the message of `e`, and returns what that
call returns. -/
theorem hook_error_output (env : Env) (opt : pvcOptions) (pre post : List TargetInfo)
    (target : BackupTarget) (e : GoError)
    (hpre : ∀ x ∈ pre, entryMatches opt x = false)
    (hm : targetMatched target.Ref opt.targetKind opt.targetName = true)
    (hhost : (env.GetHostName target).2 = none)
    (hhook : env.ExecutePreBackupActions (actionOptions opt target.Ref) = some e) :
    (opt.outputDir = "" →
      runTargetLoop env opt (pre ++ ⟨some target⟩ :: post) =
        ⟨some e, some (some (failedOutput target.Ref (env.GetHostName target).1 e)),
          setHost opt (env.GetHostName target).1,
          [Call.GetHostName target,
            Call.ExecutePreBackupActions (actionOptions opt target.Ref)]⟩) ∧
    (opt.outputDir ≠ "" →
      runTargetLoop env opt (pre ++ ⟨some target⟩ :: post) =
        ⟨env.WriteOutput (some (failedOutput target.Ref (env.GetHostName target).1 e))
            (env.filepathJoin opt.outputDir DefaultOutputFileName),
          some (some (failedOutput target.Ref (env.GetHostName target).1 e)),
          setHost opt (env.GetHostName target).1,
          [Call.GetHostName target,
            Call.ExecutePreBackupActions (actionOptions opt target.Ref),
            Call.WriteOutput (some (failedOutput target.Ref (env.GetHostName target).1 e))
              (env.filepathJoin opt.outputDir DefaultOutputFileName)]⟩) := by
  have hb := backupPVC_hook_error env (setHost opt (env.GetHostName target).1) target.Ref e
    (by rw [actionOptions_setHost]; exact hhook)
  have herr : (backupPVC env (setHost opt (env.GetHostName target).1) target.Ref).err =
      some e := by rw [hb]
  rw [runTargetLoop_skip env opt pre _ hpre, runTargetLoop_hit env opt target post hm,
    matchedBody_of_error env opt target e hhost herr, hb, actionOptions_setHost]
  constructor
  · intro h
    simp [h]
  · intro h
    simp [h]

theorem hook_error_output_witness :
    optNoDir.outputDir = "" ∧
      (runTargetLoop envHookFails optNoDir sampleTargets).ret = some errBoom ∧
      (runTargetLoop envHookFails optNoDir sampleTargets).calls =
        [Call.GetHostName sampleTarget,
          Call.ExecutePreBackupActions (actionOptions optNoDir sampleTarget.Ref)] :=
  ⟨rfl,
    by rw [show sampleTargets =
        [⟨none⟩, ⟨some { Ref := ⟨"StatefulSet", "db"⟩, metadata := "" }⟩] ++
          ⟨some sampleTarget⟩ ::
            [⟨some { Ref := ⟨"Deployment", "app-x"⟩, metadata := "later" }⟩] from rfl,
      (hook_error_output envHookFails optNoDir _ _ sampleTarget errBoom (by decide) (by decide)
        rfl rfl).1 rfl],
    by rw [show sampleTargets =
        [⟨none⟩, ⟨some { Ref := ⟨"StatefulSet", "db"⟩, metadata := "" }⟩] ++
          ⟨some sampleTarget⟩ ::
            [⟨some { Ref := ⟨"Deployment", "app-x"⟩, metadata := "later" }⟩] from rfl,
      (hook_error_output envHookFails optNoDir _ _ sampleTarget errBoom (by decide) (by decide)
        rfl rfl).1 rfl]⟩

/-- C5 as stated fails: with an output directory configured, the engine failing with
`errBoom` and the write succeeding, the command returns nil, not the engine error. -/
theorem engine_error_not_returned :
    (backupPVC envEngineFails (setHost optDir "host-0") sampleTarget.Ref).err =
        some errBoom ∧
      optDir.outputDir = "/out" ∧
      (runTargetLoop envEngineFails optDir sampleTargets).ret = none := by
  refine ⟨?_, rfl, ?_⟩ <;> decide

/-- C5 (amended): for the first matched target whose host identity resolves and for
which `backupPVC` fails with `e`: when no output directory is configured the command
returns exactly `e` and writes nothing; when one is configured the `Failed` outcome
is written there by one `WriteOutput` call, the last call of the run, and the
command returns the result of that write (nil when the write succeeds) in place of
`e`. -/
theorem engine_error_return (env : Env) (opt : pvcOptions) (pre post : List TargetInfo)
    (target : BackupTarget) (e : GoError)
    (hpre : ∀ x ∈ pre, entryMatches opt x = false)
    (hm : targetMatched target.Ref opt.targetKind opt.targetName = true)
    (hhost : (env.GetHostName target).2 = none)
    (herr : (backupPVC env (setHost opt (env.GetHostName target).1) target.Ref).err = some e) :
    (opt.outputDir = "" →
      (runTargetLoop env opt (pre ++ ⟨some target⟩ :: post)).ret = some e ∧
      (runTargetLoop env opt (pre ++ ⟨some target⟩ :: post)).calls.countP
        Call.isWriteOutput = 0) ∧
    (opt.outputDir ≠ "" →
      (runTargetLoop env opt (pre ++ ⟨some target⟩ :: post)).ret =
        env.WriteOutput (some (failedOutput target.Ref (env.GetHostName target).1 e))
          (env.filepathJoin opt.outputDir DefaultOutputFileName) ∧
      (runTargetLoop env opt (pre ++ ⟨some target⟩ :: post)).calls.getLast? =
        some (Call.WriteOutput
          (some (failedOutput target.Ref (env.GetHostName target).1 e))
          (env.filepathJoin opt.outputDir DefaultOutputFileName)) ∧
      (runTargetLoop env opt (pre ++ ⟨some target⟩ :: post)).calls.countP
        Call.isWriteOutput = 1) := by
  obtain ⟨_, hw, _, _⟩ :=
    backupPVC_calls_kinds env (setHost opt (env.GetHostName target).1) target.Ref
  rw [runTargetLoop_skip env opt pre _ hpre, runTargetLoop_hit env opt target post hm,
    matchedBody_of_error env opt target e hhost herr]
  constructor
  · intro h
    simp [h, List.countP_cons, Call.isWriteOutput, hw]
  · intro h
    have hl : ∀ (l : List Call) (x a : Call), (x :: (l ++ [a])).getLast? = some a := by
      intro l
      induction l with
      | nil => intro x a; rfl
      | cons y ys ih =>
        intro x a
        rw [List.cons_append, List.getLast?_cons_cons]
        exact ih y a
    simp [h, List.countP_cons, List.countP_append, Call.isWriteOutput, hw, hl]

theorem engine_error_return_witness :
    optNoDir.outputDir = "" ∧
      (runTargetLoop envEngineFails optNoDir sampleTargets).ret = some errBoom :=
  ⟨rfl,
    by rw [show sampleTargets =
        [⟨none⟩, ⟨some { Ref := ⟨"StatefulSet", "db"⟩, metadata := "" }⟩] ++
          ⟨some sampleTarget⟩ ::
            [⟨some { Ref := ⟨"Deployment", "app-x"⟩, metadata := "later" }⟩] from rfl]
       exact ((engine_error_return envEngineFails optNoDir _ _ sampleTarget errBoom
        (by decide) (by decide) rfl (by decide)).1 rfl).1⟩

/-! ## Lemmas on the verification polls -/

theorem eventSteps_count_fetch (m : Nat) : (eventSteps m).count PollStep.fetch = m := by
  induction m with
  | zero => rfl
  | succ m ih => simp [eventSteps, List.count_cons, ih]

theorem eventSteps_count_sleep (m : Nat) : (eventSteps m).count (PollStep.sleep 10) = m := by
  induction m with
  | zero => rfl
  | succ m ih => simp [eventSteps, List.count_cons, ih]

/-- The event poll when the fetches `n .. n+m-1` fail and fetch `n+m` succeeds, the
counter staying within the ceiling. -/
theorem checkEventLoop_success (watcher : Watcher) (eventName : String) (m : Nat) :
    ∀ (try_ n : Nat) (steps : List PollStep), try_ + m ≤ 13 →
      (∀ i, i < m → (watcher.Events (n + i) eventName).2 ≠ none) →
      (watcher.Events (n + m) eventName).2 = none →
      checkEventLoop watcher eventName try_ n steps =
        ⟨if (watcher.Events (n + m) eventName).1.Reason = "Failed" then
            some resticBackupFailed else none,
          steps ++ eventSteps m ++ [PollStep.fetch]⟩ := by
  induction m with
  | zero =>
    intro try_ n steps _ _ hok
    rw [checkEventLoop]
    simp only [Nat.add_zero] at hok ⊢
    simp only [hok, eventSteps, List.append_nil, resticBackupFailed]
    split <;> rfl
  | succ m ih =>
    intro try_ n steps hle hfail hok
    rw [checkEventLoop]
    have h0 := hfail 0 (Nat.succ_pos m)
    simp only [Nat.add_zero] at h0
    obtain ⟨e, he⟩ := Option.ne_none_iff_exists'.mp h0
    have hnot : ¬ try_ > 12 := by omega
    simp only [he, hnot, if_false]
    rw [ih (try_ + 1) (n + 1) _ (by omega)
      (fun i hi => by
        have := hfail (i + 1) (by omega)
        rwa [show n + (i + 1) = n + 1 + i from by omega] at this)
      (by rwa [show n + (m + 1) = n + 1 + m from by omega] at hok)]
    simp [eventSteps, show n + (m + 1) = n + 1 + m from by omega]

/-- The event poll when every fetch up to the one made with `try_ = 13` fails. -/
theorem checkEventLoop_timeout (watcher : Watcher) (eventName : String) (m : Nat) :
    ∀ (try_ n : Nat) (steps : List PollStep), try_ + m = 13 →
      (∀ i, i ≤ m → (watcher.Events (n + i) eventName).2 ≠ none) →
      checkEventLoop watcher eventName try_ n steps =
        ⟨(watcher.Events (n + m) eventName).2, steps ++ eventSteps m ++ [PollStep.fetch]⟩ := by
  induction m with
  | zero =>
    intro try_ n steps heq hfail
    rw [checkEventLoop]
    have h0 := hfail 0 (Nat.le_refl 0)
    simp only [Nat.add_zero] at h0 ⊢
    obtain ⟨e, he⟩ := Option.ne_none_iff_exists'.mp h0
    have hgt : try_ > 12 := by omega
    simp only [he, hgt, if_true, eventSteps, List.append_nil]
  | succ m ih =>
    intro try_ n steps heq hfail
    rw [checkEventLoop]
    have h0 := hfail 0 (Nat.zero_le _)
    simp only [Nat.add_zero] at h0
    obtain ⟨e, he⟩ := Option.ne_none_iff_exists'.mp h0
    have hnot : ¬ try_ > 12 := by omega
    simp only [he, hnot, if_false]
    rw [ih (try_ + 1) (n + 1) _ (by omega)
      (fun i hi => by
        have := hfail (i + 1) (by omega)
        rwa [show n + (i + 1) = n + 1 + i from by omega] at this)]
    simp [eventSteps, show n + (m + 1) = n + 1 + m from by omega]

/-- C7 as stated fails: after 13 consecutive failed fetches the poll has not given
up; it fetches a 14th time, and when that fetch succeeds the result is nil. -/
theorem event_poll_survives_13_failures :
    (∀ i, i < 13 → (watcherSidecarStays.Events i "backup").2 ≠ none) ∧
      (checkEventForBackup watcherSidecarStays "backup").ret = none ∧
      (checkEventForBackup watcherSidecarStays "backup").fetches = 14 := by
  have h := checkEventLoop_success watcherSidecarStays "backup" 13 0 0 [] (by omega)
    (by decide) (by decide)
  refine ⟨by decide, ?_, ?_⟩
  · rw [checkEventForBackup, h]
    decide
  · rw [checkEventForBackup, h]
    simp [PollResult.fetches, List.count_append, eventSteps_count_fetch]

/-- C7 (amended): in `checkEventForBackup` (10-second interval, test `try > 12`), if
the event fetch fails on 14 consecutive attempts, the poll gives up on the 14th
failed attempt: it returns the non-nil error of the 14th fetch after exactly 14
fetches and 13 sleeps of 10 seconds, without a 15th fetch. -/
theorem event_poll_timeout (watcher : Watcher) (eventName : String)
    (hfail : ∀ i, i ≤ 13 → (watcher.Events i eventName).2 ≠ none) :
    (checkEventForBackup watcher eventName).ret = (watcher.Events 13 eventName).2 ∧
      (checkEventForBackup watcher eventName).ret ≠ none ∧
      (checkEventForBackup watcher eventName).steps = eventSteps 13 ++ [PollStep.fetch] ∧
      (checkEventForBackup watcher eventName).fetches = 14 ∧
      (checkEventForBackup watcher eventName).sleeps 10 = 13 := by
  have h := checkEventLoop_timeout watcher eventName 13 0 0 [] (by omega)
    (by simpa using hfail)
  simp only [Nat.zero_add, List.nil_append] at h
  rw [checkEventForBackup, h]
  refine ⟨rfl, hfail 13 (Nat.le_refl _), rfl, ?_, ?_⟩
  · simp [PollResult.fetches, List.count_append, eventSteps_count_fetch]
  · simp [PollResult.sleeps, List.count_append, eventSteps_count_sleep]

theorem event_poll_timeout_witness :
    (∀ i, i ≤ 13 → (watcherAllFail.Events i "backup").2 ≠ none) ∧
      (checkEventForBackup watcherAllFail "backup").ret = some ⟨"event not found"⟩ ∧
      (checkEventForBackup watcherAllFail "backup").fetches = 14 :=
  ⟨by decide, (event_poll_timeout watcherAllFail "backup" (by decide)).1,
    (event_poll_timeout watcherAllFail "backup" (by decide)).2.2.2.1⟩

/-- C9: for every run of `checkEventForBackup` in which fetch number `k` (counted
from 0, `k ≤ 13`) is the first to succeed, the result is decided by the `Reason` of
the event that fetch returned, however many fetches failed before: the
`"Restic backup failed."` error when `Reason` is `"Failed"`, nil for any other
`Reason`; so the result is non-nil exactly when `Reason` is `"Failed"`, no earlier
fetch error is returned, and `k + 1` fetches were made. -/
theorem event_result_by_reason (watcher : Watcher) (eventName : String) (k : Nat)
    (hk : k ≤ 13)
    (hfail : ∀ i, i < k → (watcher.Events i eventName).2 ≠ none)
    (hok : (watcher.Events k eventName).2 = none) :
    (checkEventForBackup watcher eventName).ret =
        (if (watcher.Events k eventName).1.Reason = "Failed" then some resticBackupFailed
          else none) ∧
      ((checkEventForBackup watcher eventName).ret ≠ none ↔
        (watcher.Events k eventName).1.Reason = "Failed") ∧
      (checkEventForBackup watcher eventName).fetches = k + 1 := by
  have h := checkEventLoop_success watcher eventName k 0 0 [] (by omega)
    (by simpa using hfail) (by simpa using hok)
  simp only [Nat.zero_add, List.nil_append] at h
  rw [checkEventForBackup, h]
  refine ⟨rfl, ?_, ?_⟩
  · by_cases hr : (watcher.Events k eventName).1.Reason = "Failed" <;> simp [hr]
  · simp [PollResult.fetches, List.count_append, eventSteps_count_fetch]

theorem event_result_by_reason_witness :
    (watcherFailedEvent.Events 2 "backup").2 = none ∧
      (checkEventForBackup watcherFailedEvent "backup").ret = some ⟨"Restic backup failed."⟩ ∧
      (checkEventForBackup watcherSidecarStays "backup").ret = none :=
  ⟨rfl,
    (event_result_by_reason watcherFailedEvent "backup" 2 (by decide) (by decide) rfl).1,
    (event_result_by_reason watcherSidecarStays "backup" 13 (by decide) (by decide) rfl).1⟩

/-- Whatever the fetches return, the event poll entered with counter `try_` makes at
most `13 - try_ + 1` further fetches and `13 - try_` further sleeps. -/
theorem checkEventLoop_bound (watcher : Watcher) (eventName : String) (d : Nat) :
    ∀ (try_ n : Nat) (steps : List PollStep), 13 - try_ = d →
      (checkEventLoop watcher eventName try_ n steps).steps.count PollStep.fetch ≤
          steps.count PollStep.fetch + d + 1 ∧
        (checkEventLoop watcher eventName try_ n steps).steps.count (PollStep.sleep 10) ≤
          steps.count (PollStep.sleep 10) + d := by
  induction d with
  | zero =>
    intro try_ n steps hd
    rw [checkEventLoop]
    have hgt : try_ > 12 := by omega
    simp only [hgt, if_true]
    split
    · split <;> simp [List.count_append]
    · simp [List.count_append]
  | succ d ih =>
    intro try_ n steps hd
    rw [checkEventLoop]
    have hnot : ¬ try_ > 12 := by omega
    simp only [hnot, if_false]
    split
    · split <;> simp [List.count_append]
    · obtain ⟨h1, h2⟩ := ih (try_ + 1) (n + 1)
        (steps ++ [PollStep.fetch] ++ [PollStep.sleep 10]) (by omega)
      have c1 : (steps ++ [PollStep.fetch] ++ [PollStep.sleep 10]).count PollStep.fetch =
          steps.count PollStep.fetch + 1 := by simp [List.count_append]
      have c2 : (steps ++ [PollStep.fetch] ++ [PollStep.sleep 10]).count (PollStep.sleep 10) =
          steps.count (PollStep.sleep 10) + 1 := by simp [List.count_append]
      rw [c1] at h1
      rw [c2] at h2
      constructor <;> omega

/-- The function `checkContainerDeletion` returns nil or its one error. -/
theorem checkContainerDeletion_cases (k : ControllerConsts) (containers : List Container) :
    checkContainerDeletion k containers = none ∨
      checkContainerDeletion k containers = some sidecarNotDeleted := by
  induction containers with
  | nil => exact Or.inl rfl
  | cons c rest ih =>
    rw [checkContainerDeletion]
    split
    · exact Or.inr rfl
    · exact ih

/-- The function `checkContainerDeletion` returns nil exactly when no container
bears the sentinel name. -/
theorem checkContainerDeletion_eq_none (k : ControllerConsts) (containers : List Container) :
    checkContainerDeletion k containers = none ↔
      ∀ c ∈ containers, c.Name ≠ k.ContainerName := by
  induction containers with
  | nil => simp [checkContainerDeletion]
  | cons c rest ih =>
    rw [checkContainerDeletion]
    by_cases h : c.Name = k.ContainerName
    · simp [h]
    · simp [h, ih]

/-- Whatever the fetches return, the event poll makes at most 14 fetches and 13
sleeps of 10 s, and when no fetch ever succeeds it returns a non-nil error after
exactly 14 fetches. -/
theorem event_poll_bounded (watcher : Watcher) (eventName : String) :
    (checkEventForBackup watcher eventName).fetches ≤ 14 ∧
      (checkEventForBackup watcher eventName).sleeps 10 ≤ 13 ∧
      ((∀ i, (watcher.Events i eventName).2 ≠ none) →
        (checkEventForBackup watcher eventName).ret ≠ none ∧
          (checkEventForBackup watcher eventName).fetches = 14) := by
  obtain ⟨e1, e2⟩ := checkEventLoop_bound watcher eventName 13 0 0 [] rfl
  simp only [List.count_nil, Nat.zero_add] at e1 e2
  refine ⟨e1, e2, ?_⟩
  intro hfail
  have h := checkEventLoop_timeout watcher eventName 13 0 0 [] (by omega)
    (fun i _ => by simpa using hfail i)
  simp only [Nat.zero_add, List.nil_append] at h
  rw [checkEventForBackup, h]
  exact ⟨hfail 13, by simp [PollResult.fetches, List.count_append, eventSteps_count_fetch]⟩

/-- Whatever the fetches return, the teardown poll entered with counter `try_` makes
at most `6 - try_ + 1` further iterations, and it ends by returning nil, by
panicking, or, after running to the ceiling, by returning the teardown error. -/
theorem checkContainerLoop_bound (k : ControllerConsts) (watcher : Watcher)
    (name _type : String) (d : Nat) :
    ∀ (try_ n : Nat) (containers : List Container) (steps : List PollStep), 6 - try_ = d →
      (checkContainerLoop k watcher name _type try_ n containers steps).steps.count
          (PollStep.sleep 20) ≤ steps.count (PollStep.sleep 20) + d + 1 ∧
        (checkContainerLoop k watcher name _type try_ n containers steps).steps.count
          PollStep.fetch ≤ steps.count PollStep.fetch + d + 1 ∧
        ((checkContainerLoop k watcher name _type try_ n containers steps).outcome =
            Outcome.returned none ∨
          (checkContainerLoop k watcher name _type try_ n containers steps).outcome =
            Outcome.panicked ∨
          ((checkContainerLoop k watcher name _type try_ n containers steps).outcome =
              Outcome.returned (some sidecarNotDeleted) ∧
            (try_ ≤ 6 →
              (checkContainerLoop k watcher name _type try_ n containers steps).steps.count
                (PollStep.sleep 20) = steps.count (PollStep.sleep 20) + (7 - try_)))) := by
  induction d with
  | zero =>
    intro try_ n containers steps hd
    rw [checkContainerLoop]
    have hgt : try_ + 1 > 6 := by omega
    simp only [hgt, if_true]
    cases hsw : (switchType k watcher name _type n containers).1 with
    | none =>
      simp only
      cases (switchType k watcher name _type n containers).2 <;>
        simp [List.count_append]
    | some cs =>
      simp only
      rcases checkContainerDeletion_cases k cs with hdel | hdel
      · rw [hdel]
        simp only
        cases (switchType k watcher name _type n containers).2 <;>
          simp [List.count_append]
      · rw [hdel]
        simp only
        cases (switchType k watcher name _type n containers).2 <;>
          (simp [List.count_append]; try omega)
  | succ d ih =>
    intro try_ n containers steps hd
    rw [checkContainerLoop]
    have hnot : ¬ try_ + 1 > 6 := by omega
    simp only [hnot, if_false]
    cases hsw : (switchType k watcher name _type n containers).1 with
    | none =>
      simp only
      cases (switchType k watcher name _type n containers).2 <;>
        (simp [List.count_append]; try omega)
    | some cs =>
      simp only
      rcases checkContainerDeletion_cases k cs with hdel | hdel
      · rw [hdel]
        simp only
        cases (switchType k watcher name _type n containers).2 <;>
          (simp [List.count_append]; try omega)
      · rw [hdel]
        simp only
        cases hb : (switchType k watcher name _type n containers).2
        · obtain ⟨h1, h2, h3⟩ := ih (try_ + 1) (n + 1) cs
            (steps ++ [PollStep.sleep 20]) (by omega)
          have c1 : (steps ++ [PollStep.sleep 20]).count (PollStep.sleep 20) =
              steps.count (PollStep.sleep 20) + 1 := by simp [List.count_append]
          have c2 : (steps ++ [PollStep.sleep 20]).count PollStep.fetch =
              steps.count PollStep.fetch := by simp [List.count_append]
          simp only [Bool.false_eq_true, if_false]
          rw [c1] at h1 h3
          rw [c2] at h2
          refine ⟨by omega, by omega, ?_⟩
          rcases h3 with h3 | h3 | ⟨h3, h4⟩
          · exact Or.inl h3
          · exact Or.inr (Or.inl h3)
          · exact Or.inr (Or.inr ⟨h3, fun _ => by have := h4 (by omega); omega⟩)
        · obtain ⟨h1, h2, h3⟩ := ih (try_ + 1) (n + 1) cs
            (steps ++ [PollStep.sleep 20] ++ [PollStep.fetch]) (by omega)
          have c1 : (steps ++ [PollStep.sleep 20] ++ [PollStep.fetch]).count
              (PollStep.sleep 20) = steps.count (PollStep.sleep 20) + 1 := by
            simp [List.count_append]
          have c2 : (steps ++ [PollStep.sleep 20] ++ [PollStep.fetch]).count PollStep.fetch =
              steps.count PollStep.fetch + 1 := by simp [List.count_append]
          simp only [if_true]
          rw [c1] at h1 h3
          rw [c2] at h2
          refine ⟨by omega, by omega, ?_⟩
          rcases h3 with h3 | h3 | ⟨h3, h4⟩
          · exact Or.inl h3
          · exact Or.inr (Or.inl h3)
          · exact Or.inr (Or.inr ⟨h3, fun _ => by have := h4 (by omega); omega⟩)

/-- Whatever the fetches return, the teardown poll runs at most 7 iterations: at
most 7 sleeps of 20 s and at most 7 fetches. -/
theorem teardown_poll_bounded (k : ControllerConsts) (watcher : Watcher)
    (name _type : String) :
    (checkContainerAfterBackupDelete k watcher name _type).steps.count (PollStep.sleep 20) ≤ 7 ∧
      (checkContainerAfterBackupDelete k watcher name _type).steps.count PollStep.fetch ≤ 7 := by
  obtain ⟨c1, c2, _⟩ := checkContainerLoop_bound k watcher name _type 6 0 0 [] [] rfl
  simp only [List.count_nil, Nat.zero_add] at c1 c2
  exact ⟨c1, c2⟩

/-- In the first iteration the `switch` leaves `containers` empty or panics: a
successful fetch does not assign it, a failed fetch yields the empty object, whose
template is nil for a replication controller and holds no container otherwise. -/
theorem switchType_first (k : ControllerConsts) (watcher : Watcher) (name _type : String) :
    (switchType k watcher name _type 0 []).1 = none ∨
      (switchType k watcher name _type 0 []).1 = some [] := by
  unfold switchType
  split
  · cases h : watcher.ReplicationControllers 0 name with
    | ok o => simp [GetResult.err]
    | failed e => simp [GetResult.err, GetResult.obj, ReplicationController.empty]
  split
  · cases h : watcher.ReplicaSets 0 name with
    | ok o => simp [GetResult.err]
    | failed e => simp [GetResult.err, GetResult.obj, ReplicaSet.empty]
  split
  · cases h : watcher.Deployments 0 name with
    | ok o => simp [GetResult.err]
    | failed e => simp [GetResult.err, GetResult.obj, Deployment.empty]
  split
  · cases h : watcher.DaemonSets 0 name with
    | ok o => simp [GetResult.err]
    | failed e => simp [GetResult.err, GetResult.obj, DaemonSet.empty]
  · exact Or.inr rfl

/-- On no cluster does the teardown poll reach a second iteration or return the
teardown error: it sleeps once and then returns nil or panics. -/
theorem teardown_poll_single_iteration (k : ControllerConsts) (watcher : Watcher)
    (name _type : String) :
    (checkContainerAfterBackupDelete k watcher name _type).steps.count (PollStep.sleep 20) = 1 ∧
      ((checkContainerAfterBackupDelete k watcher name _type).outcome = Outcome.returned none ∨
        (checkContainerAfterBackupDelete k watcher name _type).outcome = Outcome.panicked) := by
  rw [checkContainerAfterBackupDelete, checkContainerLoop]
  rcases switchType_first k watcher name _type with h | h
  · simp only [h]
    cases (switchType k watcher name _type 0 []).2 <;> simp [List.count_append]
  · simp only [h, checkContainerDeletion]
    cases (switchType k watcher name _type 0 []).2 <;> simp [List.count_append]

/-- When the fetch of the first iteration succeeds, `containers` keeps its initial
nil value, so the teardown poll returns nil at once, whatever the fetched pod
template holds. -/
theorem checkContainer_first_fetch_ok (k : ControllerConsts) (watcher : Watcher)
    (name _type : String)
    (hrc : (watcher.ReplicationControllers 0 name).err = none)
    (hrs : (watcher.ReplicaSets 0 name).err = none)
    (hdp : (watcher.Deployments 0 name).err = none)
    (hds : (watcher.DaemonSets 0 name).err = none) :
    (checkContainerAfterBackupDelete k watcher name _type).outcome = Outcome.returned none ∧
      (checkContainerAfterBackupDelete k watcher name _type).steps.count
        (PollStep.sleep 20) = 1 := by
  have hsw : (switchType k watcher name _type 0 []).1 = some [] := by
    unfold switchType
    simp only [hrc, hrs, hdp, hds]
    split
    · simp
    split
    · simp
    split
    · simp
    split
    · simp
    · rfl
  rw [checkContainerAfterBackupDelete, checkContainerLoop]
  simp only [hsw, checkContainerDeletion]
  cases (switchType k watcher name _type 0 []).2 <;> simp [List.count_append]

/-- C8 fails on the code: for each of the four workload kinds, with every fetch
succeeding and every fetched pod template still holding the sidecar, the teardown
poll returns nil after a single iteration, where the claim expects the teardown
error after the ceiling. The list checked is not the fetched one: it is assigned
only when the fetch fails. -/
theorem teardown_poll_ignores_fetched_containers :
    watcherSidecarStays.ReplicationControllers 0 "app" =
        GetResult.ok ⟨some ⟨[⟨"app"⟩, ⟨"restik-sidecar"⟩]⟩⟩ ∧
      checkContainerDeletion restikConsts [⟨"app"⟩, ⟨"restik-sidecar"⟩] =
        some sidecarNotDeleted ∧
      checkContainerAfterBackupDelete restikConsts watcherSidecarStays "app"
        "ReplicationController" =
          ⟨Outcome.returned none, [PollStep.sleep 20, PollStep.fetch]⟩ ∧
      checkContainerAfterBackupDelete restikConsts watcherSidecarStays "app"
        "ReplicaSet" = ⟨Outcome.returned none, [PollStep.sleep 20, PollStep.fetch]⟩ ∧
      checkContainerAfterBackupDelete restikConsts watcherSidecarStays "app"
        "Deployment" = ⟨Outcome.returned none, [PollStep.sleep 20, PollStep.fetch]⟩ ∧
      checkContainerAfterBackupDelete restikConsts watcherSidecarStays "app"
        "DaemonSet" = ⟨Outcome.returned none, [PollStep.sleep 20, PollStep.fetch]⟩ := by
  refine ⟨rfl, by decide, ?_, ?_, ?_, ?_⟩ <;>
    (rw [checkContainerAfterBackupDelete, checkContainerLoop]; decide)

/-- C10 fails on the code: when the `Get` of a replication controller fails, the
teardown poll does not return a result within its ceiling; after one sleep and one
fetch it dereferences the nil template of the empty object and panics. With the
other three kinds a failing `Get` makes the poll return nil at once, so on no
cluster does a poll that never confirms return the teardown error. -/
theorem teardown_poll_panics_on_failed_get :
    (watcherAllFail.ReplicationControllers 0 "app").err = some ⟨"not found"⟩ ∧
      checkContainerAfterBackupDelete restikConsts watcherAllFail "app"
        "ReplicationController" =
          ⟨Outcome.panicked, [PollStep.sleep 20, PollStep.fetch]⟩ ∧
      checkContainerAfterBackupDelete restikConsts watcherAllFail "app"
        "ReplicaSet" = ⟨Outcome.returned none, [PollStep.sleep 20, PollStep.fetch]⟩ ∧
      checkContainerAfterBackupDelete restikConsts watcherAllFail "app"
        "Deployment" = ⟨Outcome.returned none, [PollStep.sleep 20, PollStep.fetch]⟩ ∧
      checkContainerAfterBackupDelete restikConsts watcherAllFail "app"
        "DaemonSet" = ⟨Outcome.returned none, [PollStep.sleep 20, PollStep.fetch]⟩ := by
  refine ⟨rfl, ?_, ?_, ?_, ?_⟩ <;>
    (rw [checkContainerAfterBackupDelete, checkContainerLoop]; decide)

end Stash
